import Mathlib

/-
Verification of the riemann-hypotenuse repository (src/work/gemini.py).

The repository defines one pure function, riemann_hypotenuse, which the
spec calls DistortedMagnitude, and one test driver, run_tests, which the
spec calls ExampleRunner.  Both are embedded below over the real numbers:
the Python code uses IEEE-754 doubles with the standard library exp and
sqrt, which we model by Real.exp and Real.sqrt.
-/

namespace RiemannHypotenuse

open Real

/-- Embedding of riemann_hypotenuse from src/work/gemini.py, lines 3-48.
The Python body is: if spheritude_factor < 0 then replace it by its
absolute value; base_hypotenuse_squared = a ** 2 + b ** 2;
distortion_factor = math.exp(spheritude_factor / 10.0);
riemann_h = math.sqrt(base_hypotenuse_squared * distortion_factor). -/
noncomputable def riemann_hypotenuse (a b spheritude_factor : ℝ) : ℝ :=
  let k := if spheritude_factor < 0 then |spheritude_factor| else spheritude_factor
  let base_hypotenuse_squared := a ^ 2 + b ^ 2
  let distortion_factor := Real.exp (k / 10.0)
  let riemann_h := Real.sqrt (base_hypotenuse_squared * distortion_factor)
  riemann_h

/-- Reference definition of DistortedMagnitude, written from the words of
the spec claim C1: sqrt((a*a + b*b) * exp(|k| / 10.0)).  Used only to be
compared with the embedding of the source. -/
noncomputable def DistortedMagnitude_ref (a b k : ℝ) : ℝ :=
  Real.sqrt ((a * a + b * b) * Real.exp (|k| / 10.0))

/-- Model of Python math.sqrt: raises ValueError (here: none) on a
negative argument, otherwise returns the nonnegative square root. -/
noncomputable def math_sqrt (x : ℝ) : Option ℝ :=
  if x < 0 then none else some (Real.sqrt x)

/-- Error-aware embedding of riemann_hypotenuse: identical to
riemann_hypotenuse but routing the square root through math_sqrt, so that
the error path of the Python library function is visible.  Real.exp is
total on the reals, so no error path is modelled for it. -/
noncomputable def riemann_hypotenuse_checked (a b spheritude_factor : ℝ) : Option ℝ :=
  let k := if spheritude_factor < 0 then |spheritude_factor| else spheritude_factor
  let base_hypotenuse_squared := a ^ 2 + b ^ 2
  let distortion_factor := Real.exp (k / 10.0)
  math_sqrt (base_hypotenuse_squared * distortion_factor)

/-- One test case of run_tests: the fields of the Python dict literal. -/
structure TestCase where
  a : ℝ
  b : ℝ
  spheritude_factor : ℝ
  expected_output_tolerance : ℝ

/-- The six literal test cases of run_tests, src/work/gemini.py lines 58-71,
in source order. -/
def test_cases : List TestCase :=
  [⟨3.0, 4.0, 0.0, 5.0⟩,
   ⟨5.0, 12.0, 1.0, 13.67⟩,
   ⟨6.0, 8.0, 5.0, 16.48⟩,
   ⟨0.0, 0.0, 10.0, 0.0⟩,
   ⟨7.0, 0.0, 2.0, 7.78⟩,
   ⟨3.0, 4.0, -1.0, 5.25⟩]

/-- Model of Python math.isclose(x, y, abs_tol, rel_tol) on finite reals:
abs(x - y) is at most max(rel_tol * max(abs x, abs y), abs_tol). -/
def isclose (x y abs_tol rel_tol : ℝ) : Prop :=
  |x - y| ≤ max (rel_tol * max |x| |y|) abs_tol

/-- The per-case record printed by run_tests: the inputs, the calculated
value, and whether the case was classified PASSED. -/
structure CaseReport where
  inputs : TestCase
  calculated_h : ℝ
  status_passed : Prop

/-- Processing of one test case inside the loop of run_tests, src lines
75-100: compute riemann_hypotenuse on the inputs and classify with
math.isclose at abs_tol = 0.01 and rel_tol = 1e-9. -/
noncomputable def case_report (t : TestCase) : CaseReport :=
  let calculated_h := riemann_hypotenuse t.a t.b t.spheritude_factor
  let is_close := isclose calculated_h t.expected_output_tolerance 0.01 1e-9
  ⟨t, calculated_h, is_close⟩

/-- The loop of run_tests, src lines 74-100: walks the case list in order
carrying the all_tests_passed flag, which is lowered to False whenever a
case is not close, and emits one report per case.  Returns the reports in
order together with the final flag. -/
noncomputable def run_tests_loop : List TestCase → Prop → List CaseReport × Prop
  | [], all_tests_passed => ([], all_tests_passed)
  | t :: rest, all_tests_passed =>
    let r := case_report t
    let next := run_tests_loop rest (all_tests_passed ∧ r.status_passed)
    (r :: next.1, next.2)

/-- run_tests, src lines 52-105: runs the loop over the literal test case
list starting with all_tests_passed = True; the second component is the
condition under which the final summary reports that all tests passed. -/
noncomputable def run_tests : List CaseReport × Prop :=
  run_tests_loop test_cases True

/-- Helper: the clamp makes riemann_hypotenuse equal to the closed form
using the absolute value of the distortion parameter. -/
lemma riemann_hypotenuse_eq_abs (a b k : ℝ) :
    riemann_hypotenuse a b k = Real.sqrt ((a ^ 2 + b ^ 2) * Real.exp (|k| / 10)) := by
  simp only [riemann_hypotenuse]
  split_ifs with h
  · norm_num
  · rw [abs_of_nonneg (not_lt.mp h)]
    norm_num

/-- Helper: squaring the exponential of a halved argument recovers the
exponential of the whole argument. -/
lemma exp_half_sq (t : ℝ) : Real.exp (t / 2) ^ 2 = Real.exp t := by
  rw [sq, ← Real.exp_add]
  norm_num

/-- Helper: closed form of the square root of a square times an
exponential, for a nonnegative base. -/
lemma sqrt_sq_mul_exp (c t : ℝ) (hc : 0 ≤ c) :
    Real.sqrt (c ^ 2 * Real.exp t) = c * Real.exp (t / 2) := by
  have h : c ^ 2 * Real.exp t = (c * Real.exp (t / 2)) ^ 2 := by
    rw [mul_pow, exp_half_sq]
  rw [h, Real.sqrt_sq (by positivity)]

/-- Helper: numeric upper bound on exp(1/4), from the d9 bound on exp 1. -/
lemma exp_quarter_lt : Real.exp (1 / 4) < 1.3 := by
  have h4 : Real.exp (1 / 4) ^ 4 = Real.exp 1 := by
    rw [← Real.exp_nat_mul]
    norm_num
  refine lt_of_pow_lt_pow_left₀ 4 (by norm_num) ?_
  rw [h4]
  exact lt_trans Real.exp_one_lt_d9 (by norm_num)

/-- Helper: numeric upper bound on exp(1/10), from the d9 bound on exp 1. -/
lemma exp_tenth_lt : Real.exp (1 / 10) < 1.11 := by
  have h10 : Real.exp (1 / 10) ^ 10 = Real.exp 1 := by
    rw [← Real.exp_nat_mul]
    norm_num
  refine lt_of_pow_lt_pow_left₀ 10 (by norm_num) ?_
  rw [h10]
  exact lt_trans Real.exp_one_lt_d9 (by norm_num)

/-- Helper: numeric upper bound on exp(1/20), from the d9 bound on exp 1. -/
lemma exp_twentieth_lt : Real.exp (1 / 20) < 1.052 := by
  have h20 : Real.exp (1 / 20) ^ 20 = Real.exp 1 := by
    rw [← Real.exp_nat_mul]
    norm_num
  refine lt_of_pow_lt_pow_left₀ 20 (by norm_num) ?_
  rw [h20]
  exact lt_trans Real.exp_one_lt_d9 (by norm_num)

/-- Helper: numeric lower bound on exp(1/20), from the d9 bound on exp 1. -/
lemma exp_twentieth_gt : 1.0508 < Real.exp (1 / 20) := by
  have h20 : Real.exp (1 / 20) ^ 20 = Real.exp 1 := by
    rw [← Real.exp_nat_mul]
    norm_num
  refine lt_of_pow_lt_pow_left₀ 20 (Real.exp_pos _).le ?_
  rw [h20]
  exact lt_trans (by norm_num) Real.exp_one_gt_d9

/-- Helper: closed form of test case 1. -/
lemma riemann_case1 : riemann_hypotenuse 3 4 0 = 5 := by
  rw [riemann_hypotenuse_eq_abs]
  norm_num [Real.exp_zero]
  rw [show (25:ℝ) = 5 ^ 2 by norm_num, Real.sqrt_sq (by norm_num)]

/-- Helper: closed form of test case 2. -/
lemma riemann_case2 : riemann_hypotenuse 5 12 1 = 13 * Real.exp (1 / 20) := by
  rw [riemann_hypotenuse_eq_abs]
  rw [show ((5:ℝ) ^ 2 + 12 ^ 2) * Real.exp (|(1:ℝ)| / 10)
      = 13 ^ 2 * Real.exp (1 / 10) by norm_num]
  rw [sqrt_sq_mul_exp 13 (1 / 10) (by norm_num)]
  norm_num

/-- Helper: closed form of test case 3. -/
lemma riemann_case3 : riemann_hypotenuse 6 8 5 = 10 * Real.exp (1 / 4) := by
  rw [riemann_hypotenuse_eq_abs]
  rw [show ((6:ℝ) ^ 2 + 8 ^ 2) * Real.exp (|(5:ℝ)| / 10)
      = 10 ^ 2 * Real.exp (1 / 2) by norm_num]
  rw [sqrt_sq_mul_exp 10 (1 / 2) (by norm_num)]
  norm_num

/-- Helper: closed form of test case 4. -/
lemma riemann_case4 : riemann_hypotenuse 0 0 10 = 0 := by
  rw [riemann_hypotenuse_eq_abs]
  norm_num

/-- Helper: closed form of test case 5. -/
lemma riemann_case5 : riemann_hypotenuse 7 0 2 = 7 * Real.exp (1 / 10) := by
  rw [riemann_hypotenuse_eq_abs]
  rw [show ((7:ℝ) ^ 2 + 0 ^ 2) * Real.exp (|(2:ℝ)| / 10)
      = 7 ^ 2 * Real.exp (1 / 5) by norm_num]
  rw [sqrt_sq_mul_exp 7 (1 / 5) (by norm_num)]
  norm_num

/-- Helper: closed form of test case 6. -/
lemma riemann_case6 : riemann_hypotenuse 3 4 (-1) = 5 * Real.exp (1 / 20) := by
  rw [riemann_hypotenuse_eq_abs]
  rw [show ((3:ℝ) ^ 2 + 4 ^ 2) * Real.exp (|(-1:ℝ)| / 10)
      = 5 ^ 2 * Real.exp (1 / 10) by norm_num]
  rw [sqrt_sq_mul_exp 5 (1 / 10) (by norm_num)]
  norm_num

/-- Helper: the status field of a case report is the closeness check of
the calculated value against the expected value at the stated tolerances. -/
lemma case_report_status (t : TestCase) :
    (case_report t).status_passed =
      isclose (riemann_hypotenuse t.a t.b t.spheritude_factor)
        t.expected_output_tolerance 0.01 1e-9 := rfl

/-- Helper: the loop emits exactly one report per test case, in order. -/
lemma run_tests_loop_reports (l : List TestCase) (acc : Prop) :
    (run_tests_loop l acc).1 = l.map case_report := by
  induction l generalizing acc with
  | nil => rfl
  | cons t rest ih => simp [run_tests_loop, ih]

/-- Helper: the final flag of the loop holds exactly when the incoming
flag holds and every case in the list passes its closeness check. -/
lemma run_tests_loop_flag (l : List TestCase) (acc : Prop) :
    (run_tests_loop l acc).2 ↔ (acc ∧ ∀ t ∈ l, (case_report t).status_passed) := by
  induction l generalizing acc with
  | nil => simp [run_tests_loop]
  | cons t rest ih =>
    simp only [run_tests_loop, List.mem_cons, ih]
    constructor
    · rintro ⟨⟨ha, ht⟩, hrest⟩
      exact ⟨ha, fun s hs => hs.elim (fun h => h ▸ ht) (hrest s)⟩
    · rintro ⟨ha, hall⟩
      exact ⟨⟨ha, hall t (Or.inl rfl)⟩, fun s hs => hall s (Or.inr hs)⟩

/-- Helper: the third test case of run_tests fails its closeness check,
since riemann_hypotenuse 6 8 5 is below 13 while the expected value is
16.48 and the effective tolerance is 0.01. -/
lemma case3_fails : ¬ (case_report ⟨6.0, 8.0, 5.0, 16.48⟩).status_passed := by
  rw [case_report_status]
  have h3 : riemann_hypotenuse (6.0:ℝ) (8.0:ℝ) (5.0:ℝ) = 10 * Real.exp (1 / 4) := by
    rw [show (6.0:ℝ) = 6 by norm_num, show (8.0:ℝ) = 8 by norm_num,
        show (5.0:ℝ) = 5 by norm_num]
    exact riemann_case3
  intro hc
  unfold isclose at hc
  rw [h3] at hc
  have hub : (10:ℝ) * Real.exp (1 / 4) < 13 := by
    nlinarith [exp_quarter_lt, Real.exp_pos ((1:ℝ) / 4)]
  have hpos : (0:ℝ) < 10 * Real.exp (1 / 4) := by positivity
  rw [abs_of_pos hpos, abs_of_pos (by norm_num : (0:ℝ) < 16.48)] at hc
  rw [max_eq_right (by linarith : (10:ℝ) * Real.exp (1 / 4) ≤ 16.48)] at hc
  rw [max_eq_right (by norm_num : (1e-9:ℝ) * 16.48 ≤ 0.01)] at hc
  rw [abs_le] at hc
  linarith [hc.1]

/-- C1: for every finite a, b, k, riemann_hypotenuse (the spec name is
DistortedMagnitude) equals the reference definition
sqrt((a*a + b*b) * exp(|k| / 10.0)): the clamp of k to its absolute
value, the base a*a + b*b, the distortion exp(k / 10.0) and the final
square root compose to exactly the reference value. -/
theorem C1_algorithm_matches_reference (a b k : ℝ) :
    riemann_hypotenuse a b k = DistortedMagnitude_ref a b k := by
  rw [riemann_hypotenuse_eq_abs, DistortedMagnitude_ref]
  have h : (a ^ 2 + b ^ 2) * Real.exp (|k| / 10)
      = (a * a + b * b) * Real.exp (|k| / 10.0) := by
    norm_num
    ring
  rw [h]

/-- C2 counterexample: the concrete scenario (a=6, b=8, k=5) → 16.48 from
the spec fails on the code: riemann_hypotenuse 6 8 5 = 10 exp(1/4) is
about 12.84, not within absolute tolerance 0.01 of 16.48. -/
theorem C2_counterexample :
    ¬ |riemann_hypotenuse 6 8 5 - 16.48| ≤ 0.01 := by
  intro hc
  rw [riemann_case3] at hc
  have hub : (10:ℝ) * Real.exp (1 / 4) < 13 := by
    nlinarith [exp_quarter_lt, Real.exp_pos ((1:ℝ) / 4)]
  rw [abs_le] at hc
  linarith [hc.1]

/-- C2 amended: of the six concrete scenarios, the four cases
(3,4,0) → 5.00, (5,12,1) → 13.67, (0,0,10) → 0.00 and (3,4,-1) → 5.25
hold within absolute tolerance 0.01, while (6,8,5) → 16.48 and
(7,0,2) → 7.78 both fail: the code computes about 12.84 and 7.74 there. -/
theorem C2_amended_scenarios :
    |riemann_hypotenuse 3 4 0 - 5| ≤ 0.01 ∧
    |riemann_hypotenuse 5 12 1 - 13.67| ≤ 0.01 ∧
    ¬ |riemann_hypotenuse 6 8 5 - 16.48| ≤ 0.01 ∧
    |riemann_hypotenuse 0 0 10 - 0| ≤ 0.01 ∧
    ¬ |riemann_hypotenuse 7 0 2 - 7.78| ≤ 0.01 ∧
    |riemann_hypotenuse 3 4 (-1) - 5.25| ≤ 0.01 := by
  refine ⟨?_, ?_, ?_, ?_, ?_, ?_⟩
  · rw [riemann_case1]
    norm_num
  · rw [riemann_case2, abs_le]
    constructor
    · nlinarith [exp_twentieth_gt]
    · nlinarith [exp_twentieth_lt]
  · intro hc
    rw [riemann_case3] at hc
    have hub : (10:ℝ) * Real.exp (1 / 4) < 13 := by
      nlinarith [exp_quarter_lt, Real.exp_pos ((1:ℝ) / 4)]
    rw [abs_le] at hc
    linarith [hc.1]
  · rw [riemann_case4]
    norm_num
  · intro hc
    rw [riemann_case5] at hc
    have hub : (7:ℝ) * Real.exp (1 / 10) < 7.77 := by
      nlinarith [exp_tenth_lt, Real.exp_pos ((1:ℝ) / 10)]
    rw [abs_le] at hc
    linarith [hc.1]
  · rw [riemann_case6, abs_le]
    constructor
    · nlinarith [exp_twentieth_gt]
    · nlinarith [exp_twentieth_lt]

/-- C3: when run_tests processes its fixed literal list of six cases, at
least one case (the third, (6,8,5) with expected 16.48) fails the
abs-tol-0.01 / rel-tol-1e-9 closeness check, so the final aggregate flag
does not hold and the summary reports that not all cases passed. -/
theorem C3_run_tests_not_all_pass :
    (∃ t ∈ test_cases, ¬ (case_report t).status_passed) ∧ ¬ run_tests.2 := by
  constructor
  · refine ⟨⟨6.0, 8.0, 5.0, 16.48⟩, ?_, case3_fails⟩
    simp [test_cases]
  · intro h
    rw [run_tests, run_tests_loop_flag] at h
    exact case3_fails (h.2 ⟨6.0, 8.0, 5.0, 16.48⟩ (by simp [test_cases]))

/-- C4: for every finite a, b, k, riemann_hypotenuse a b k is at least 0,
since its value is a real square root. -/
theorem C4_result_nonneg (a b k : ℝ) : 0 ≤ riemann_hypotenuse a b k := by
  rw [riemann_hypotenuse_eq_abs]
  exact Real.sqrt_nonneg _

/-- C5: riemann_hypotenuse is total over all real triples and never hits
an error path: the error-aware embedding, in which math.sqrt signals an
error on a negative argument, always returns the happy-path value, in
particular on negative k, which is silently replaced by its absolute
value rather than rejected. -/
theorem C5_total_never_raises (a b k : ℝ) :
    riemann_hypotenuse_checked a b k = some (riemann_hypotenuse a b k) := by
  simp only [riemann_hypotenuse_checked, riemann_hypotenuse, math_sqrt]
  rw [if_neg]
  push_neg
  positivity

/-- C6: riemann_hypotenuse is strictly increasing in k on the nonnegative
side: for fixed a, b with a*a + b*b > 0 and 0 ≤ k1 < k2, the value at k1
is strictly below the value at k2. -/
theorem C6_strict_monotone_in_k (a b k1 k2 : ℝ) (hbase : 0 < a * a + b * b)
    (hk1 : 0 ≤ k1) (hk12 : k1 < k2) :
    riemann_hypotenuse a b k1 < riemann_hypotenuse a b k2 := by
  rw [riemann_hypotenuse_eq_abs, riemann_hypotenuse_eq_abs,
      abs_of_nonneg hk1, abs_of_nonneg (le_trans hk1 hk12.le)]
  apply Real.sqrt_lt_sqrt (by positivity)
  have hb2 : (0:ℝ) < a ^ 2 + b ^ 2 := by nlinarith
  exact mul_lt_mul_of_pos_left (Real.exp_lt_exp.mpr (by linarith)) hb2

/-- C6 witness: monotonicity at the concrete input a=3, b=4, k1=0, k2=1. -/
theorem C6_strict_monotone_in_k_witness :
    (0:ℝ) < 3 * 3 + 4 * 4 ∧ (0:ℝ) ≤ 0 ∧ (0:ℝ) < 1 ∧
    riemann_hypotenuse 3 4 0 < riemann_hypotenuse 3 4 1 :=
  ⟨by norm_num, le_refl 0, by norm_num,
   C6_strict_monotone_in_k 3 4 0 1 (by norm_num) (le_refl 0) (by norm_num)⟩

/-- C7: riemann_hypotenuse is even in k: for every finite a, b, k the
value at k equals the value at -k, because of the absolute-value clamp. -/
theorem C7_even_in_k (a b k : ℝ) :
    riemann_hypotenuse a b k = riemann_hypotenuse a b (-k) := by
  rw [riemann_hypotenuse_eq_abs, riemann_hypotenuse_eq_abs, abs_neg]

/-- C8: at k = 0 the distortion factor is 1 and riemann_hypotenuse
reduces exactly to the Euclidean magnitude sqrt(a*a + b*b). -/
theorem C8_reduces_to_euclidean (a b : ℝ) :
    riemann_hypotenuse a b 0 = Real.sqrt (a * a + b * b) := by
  rw [riemann_hypotenuse_eq_abs]
  norm_num [Real.exp_zero]
  ring_nf

/-- C9: when both dimensions are zero the result is exactly zero for
every finite k, regardless of the distortion factor. -/
theorem C9_zero_at_origin (k : ℝ) : riemann_hypotenuse 0 0 k = 0 := by
  rw [riemann_hypotenuse_eq_abs]
  norm_num

/-- C10: run_tests emits exactly one report per test case, in source
order; each report is classified by the closeness check of the computed
value against the expected value at absolute tolerance 0.01 and relative
tolerance 1e-9; no case form halts the loop; and the single aggregate
flag, emitted only after the whole list is processed, holds exactly when
every case passed. -/
theorem C10_runner_classifies_and_aggregates :
    run_tests.1 = test_cases.map case_report ∧
    (∀ t : TestCase, (case_report t).status_passed =
      isclose (riemann_hypotenuse t.a t.b t.spheritude_factor)
        t.expected_output_tolerance 0.01 1e-9) ∧
    (run_tests.2 ↔ ∀ t ∈ test_cases, (case_report t).status_passed) := by
  refine ⟨run_tests_loop_reports test_cases True, fun t => case_report_status t, ?_⟩
  rw [run_tests, run_tests_loop_flag]
  simp

end RiemannHypotenuse
